import Mathlib

/-!
Verification of the `check_runtime.py` diagnostic script of the
chainer-doctor repository, as a shallow embedding in Lean.

The script is a linear, read-only probe: it locates native shared
libraries via the dynamic linker, calls version-query entry points
through ctypes, inspects installed package metadata, and prints a
structured report.  We embed it as pure functions over an abstract
`Platform` (the state of the dynamic loader and the native entry
points) and a `World` (process environment, installed packages, and
the importable modules).  Standard output is modelled as the list of
strings passed to `print`, one element per call.

Python semantics used by the embedding:

* `ctypes.util.find_library` / `ctypes.CDLL` are oracles in `Platform`;
  a `CDLL` load failure is an `OSError`, the only exception the source
  catches there.
* A native call through ctypes returns an `Int` status together with
  the value left in the `c_int` output parameter (both oracles).
* Fallible Python evaluation is `Except PyErr`; an uncaught exception
  terminates the process with a nonzero exit status.
* Comparison of an `int` with `None` (as in `7000 <= v` with
  `v = None`) raises `TypeError` under Python 3; this is the semantics
  of the chained comparison in the CuPy version-range lambdas.
* Reading a missing attribute (`mod.__version__` on a module with no
  version attribute) raises `AttributeError`, whose message text is an
  oracle `noAttrMsg` of the `World`.
-/

namespace ChainerDoctor

/-- A Python exception, identified by its type name and message text. -/
structure PyErr where
  ename : String
  emsg : String
deriving DecidableEq

/-- Metadata of an installed distribution, as returned by
`pkg_resources.get_distribution`. -/
structure Package where
  project_name : String
  version : String
  location : String
deriving DecidableEq

/-- A successfully imported Python module: its `__version__` attribute
(absent when the module declares none) and the string rendering of its
`__path__` attribute (absent when the module declares none). -/
structure PyModule where
  version : Option String
  path : Option String
deriving DecidableEq

/-- The state of the dynamic loader and of the native entry points.
`find_library` models `ctypes.util.find_library`; `loadFails l` is true
when `ctypes.CDLL l` raises `OSError`.  A loaded library handle is
identified with the name it was loaded from.  `has_dladdr` models
`hasattr(libdl, "dladdr")`; `dladdr f` is `none` when the `dladdr`
call returns 0 and otherwise carries the `dli_fname` path of the
library defining the function pointer `f`.  The three version entry
points are oracles: the driver and runtime calls yield a status code
and the value left in the `c_int` output parameter; the cuDNN call
returns the version directly. -/
structure Platform where
  find_library : String → Option String
  loadFails : String → Bool
  has_dladdr : Bool
  dladdr : Nat → Option String
  cuDriverGetVersion : Int × Int
  cudaRuntimeGetVersion : Int × Int
  cudnnGetVersion : Int

/-- Abstract function-pointer tag for `cuda.cuDriverGetVersion`. -/
def ptr_cuDriverGetVersion : Nat := 0

/-- Abstract function-pointer tag for `cudart.cudaRuntimeGetVersion`. -/
def ptr_cudaRuntimeGetVersion : Nat := 1

/-- Abstract function-pointer tag for `cudnn.cudnnGetVersion`. -/
def ptr_cudnnGetVersion : Nat := 2

/-- Abstract function-pointer tag for `nccl.ncclGetUniqueId`. -/
def ptr_ncclGetUniqueId : Nat := 3

/-- Source `get_cdll(name)`: resolve a logical library name with
`find_library`; on `None` return `None`; otherwise load it with
`CDLL`, converting an `OSError` into `None`. -/
def get_cdll (p : Platform) (name : String) : Option String :=
  match p.find_library name with
  | none => none
  | some libname => if p.loadFails libname then none else some libname

/-- Source `get_cdll_path(func)`: load `libdl`; when it is unavailable or has
no `dladdr` symbol return the sentinel `"N/A"`; when the `dladdr` call
returns 0 return the sentinel `"(error)"`; otherwise return the
`dli_fname` path. -/
def get_cdll_path (p : Platform) (func : Nat) : String :=
  match get_cdll p "dl" with
  | none => "N/A"
  | some _ =>
    if p.has_dladdr then
      match p.dladdr func with
      | none => "(error)"
      | some fname => fname
    else "N/A"

/-- Python `str.ljust` for width `w` with space fill, as used by the
report format spec of width 22: pad on the right up to `w` characters, never truncate. -/
def ljust (s : String) (w : Nat) : String :=
  s ++ String.mk (List.replicate (w - s.length) ' ')

/-- The text of the single line printed by `report(title, status)`:
the title left-justified to column width 22, a colon separator, and
the status text. -/
def reportLine (title status : String) : String :=
  ljust title 22 ++ ": " ++ status

/-- Source `report(title, status)`: one `print` call, hence exactly one
element of output. -/
def report (title status : String) : List String :=
  [reportLine title status]

/-- The 40-character separator rule printed by `header`. -/
def sep40 : String := String.mk (List.replicate 40 '=')

/-- Source `header(title)`: a blank line, a separator rule, the title, and a
second separator rule — four `print` calls. -/
def header (title : String) : List String :=
  ["", sep40, title, sep40]

/-- The probe `_report_cuda_driver(name)`: resolve `cuda`; when absent
report `not found` and return `None`; otherwise look up the defining
path of `cuDriverGetVersion`, call it, and report an `OK (version ...
from ...)` line in which the version field is the output-parameter
value on status 0 and `(ERROR <ret>!)` otherwise; the output-parameter
value is returned in either case. -/
def report_cuda_driver (p : Platform) (name : String) :
    List String × Option Int :=
  match get_cdll p "cuda" with
  | none => (report name "not found", none)
  | some _ =>
    let path := get_cdll_path p ptr_cuDriverGetVersion
    let ret := p.cuDriverGetVersion.1
    let v := p.cuDriverGetVersion.2
    let version_msg :=
      if ret = 0 then toString v else "(ERROR " ++ toString ret ++ "!)"
    (report name ("OK (version " ++ version_msg ++ " from " ++ path ++ ")"),
     some v)

/-- The probe `_report_cuda_runtime(name)`: same shape as the driver
probe, except that the success line is reported under the literal
title `"CUDA Runtime"` (the source passes that string constant to
`report` instead of the `name` parameter), while the `not found` line
uses `name`. -/
def report_cuda_runtime (p : Platform) (name : String) :
    List String × Option Int :=
  match get_cdll p "cudart" with
  | none => (report name "not found", none)
  | some _ =>
    let path := get_cdll_path p ptr_cudaRuntimeGetVersion
    let ret := p.cudaRuntimeGetVersion.1
    let v := p.cudaRuntimeGetVersion.2
    let version_msg :=
      if ret = 0 then toString v else "(ERROR " ++ toString ret ++ "!)"
    (report "CUDA Runtime"
       ("OK (version " ++ version_msg ++ " from " ++ path ++ ")"),
     some v)

/-- The probe `_report_cudnn(name)`: resolve `cudnn`; when absent
report `not found (optional)` and return false; otherwise call
`cudnnGetVersion` (direct-value convention) and report the version and
the defining path. -/
def report_cudnn (p : Platform) (name : String) : List String × Bool :=
  match get_cdll p "cudnn" with
  | none => (report name "not found (optional)", false)
  | some _ =>
    let path := get_cdll_path p ptr_cudnnGetVersion
    let version := p.cudnnGetVersion
    (report name ("OK (version " ++ toString version ++ " from " ++ path ++ ")"),
     true)

/-- The probe `_report_nccl(name)`: resolve `nccl`; when absent report
`not found (optional)` and return false; otherwise report only the
defining path of `ncclGetUniqueId` — no version entry point is called
and the line carries no version field. -/
def report_nccl (p : Platform) (name : String) : List String × Bool :=
  match get_cdll p "nccl" with
  | none => (report name "not found (optional)", false)
  | some _ =>
    let path := get_cdll_path p ptr_ncclGetUniqueId
    (report name ("OK (from " ++ path ++ ")"), true)

/-- The whole process state: current directory, environment,
loader/native state, the effect on the loader state of attempting a
companion-module import (partial effects of a failing import
included), whether a given import raises, installed packages, and
the importable modules, and the message text of the `AttributeError`
raised when reading a missing attribute of a module. -/
structure World where
  cwd : String
  environ : List (String × String)
  plat : Platform
  importEffect : String → Platform → Platform
  importRaises : String → Bool
  packages : String → Option Package
  modules : String → Except PyErr PyModule
  noAttrMsg : String → String → String

/-- The filter of the environment loop: names beginning with the
ELF-style `LD_` or the Mach-O-style `DYLD_` dynamic-linker prefix. -/
def ld_filter (kv : String × String) : Bool :=
  kv.1.startsWith "LD_" || kv.1.startsWith "DYLD_"

/-- The environment variables that the Environment section echoes. -/
def envEchoed (w : World) : List (String × String) :=
  w.environ.filter ld_filter

/-- The variable lines of the Environment section: one `report` line
per echoed variable, with the name rendered as `$NAME`. -/
def envVarLines (w : World) : List String :=
  (envEchoed w).map (fun kv => reportLine ("$" ++ kv.1) kv.2)

/-- The CUDA Driver stage of `main`: run the probe; when it yields no
version, attempt `import cupy.cuda.driver` under a bare
`try/except: pass` (only the loader-state effect survives) and run the
probe once more under the suffixed title.  Returns the printed lines
and the loader state afterwards. -/
def driverStage (w : World) : List String × Platform :=
  let d := report_cuda_driver w.plat "CUDA Driver"
  if d.2.isNone then
    let p2 := w.importEffect "cupy.cuda.driver" w.plat
    (d.1 ++ (report_cuda_driver p2 "CUDA Driver (via CuPy)").1, p2)
  else (d.1, w.plat)

/-- The CUDA Runtime stage of `main`: run the probe; when it yields no
version, attempt `import cupy.cuda.runtime` under a bare
`try/except: pass` and run the probe once more under the suffixed
title, taking its result as `cudart_version`.  Returns the printed
lines, the resulting `cudart_version`, and the loader state. -/
def runtimeStage (w : World) (p : Platform) :
    List String × Option Int × Platform :=
  let r := report_cuda_runtime p "CUDA Runtime"
  if r.2.isNone then
    let p2 := w.importEffect "cupy.cuda.runtime" p
    let r2 := report_cuda_runtime p2 "CUDA Runtime (via CuPy)"
    (r.1 ++ r2.1, r2.2, p2)
  else (r.1, r.2, p)

/-- The cuDNN stage of `main`: on failure of the first probe, attempt
`import cupy.cudnn` and then `import cupy.cuda.cudnn` in one
`try/except: pass` block (the second import is not reached when the
first raises), then run the probe once more under the suffixed
title. -/
def cudnnStage (w : World) (p : Platform) : List String × Platform :=
  let c := report_cudnn p "cuDNN"
  if c.2 then (c.1, p)
  else
    let p2 := w.importEffect "cupy.cudnn" p
    let p3 :=
      if w.importRaises "cupy.cudnn" then p2
      else w.importEffect "cupy.cuda.cudnn" p2
    (c.1 ++ (report_cudnn p3 "cuDNN (via CuPy)").1, p3)

/-- The NCCL stage of `main`: on failure of the first probe, attempt
`import cupy.cuda.nccl` under a bare `try/except: pass` and run the
probe once more under the suffixed title. -/
def ncclStage (w : World) (p : Platform) : List String :=
  let n := report_nccl p "NCCL"
  if n.2 then n.1
  else
    let p2 := w.importEffect "cupy.cuda.nccl" p
    n.1 ++ (report_nccl p2 "NCCL (via CuPy)").1

/-- The Libraries section of `main`: the four probe stages in order,
threading the loader state, and the final `cudart_version` value. -/
def librariesSection (w : World) : List String × Option Int :=
  let d := driverStage w
  let r := runtimeStage w d.2
  let c := cudnnStage w r.2.2
  let n := ncclStage w c.2
  (d.1 ++ r.1 ++ c.1 ++ n, r.2.1)

/-- The `TypeError` raised by Python 3 when evaluating `a <= b` with
an `int` on the left and `None` on the right. -/
def typeErrorIntNone : PyErr :=
  ⟨"TypeError",
   "\x27<=\x27 not supported between instances of \x27int\x27 and \x27NoneType\x27"⟩

/-- The chained comparison `lo <= v < hi` of the CuPy version-range
lambdas, applied to the possibly absent `cudart_version`: with
`v = None` the first comparison `lo <= v` raises `TypeError`
(Python 3 semantics); with an integer the chain is pure. -/
def pyChainLeLt (lo : Int) (v : Option Int) (hi : Int) :
    Except PyErr Bool :=
  match v with
  | none => .error typeErrorIntNone
  | some x => .ok (decide (lo ≤ x) && decide (x < hi))

/-- The fixed `cupy_pkgs` table: each rule is the package name with
the bounds of its version-range lambda `lambda v: lo <= v < hi`. -/
def cupy_pkgs : List (String × Int × Int) :=
  [("cupy", 7000, 10000),
   ("cupy-cuda80", 8000, 9000),
   ("cupy-cuda90", 9000, 9100),
   ("cupy-cuda91", 9100, 9200)]

/-- Python `str(x)` for the possibly absent runtime version, as interpolated
by `format`: `None` renders as the text `None`. -/
def str_of_opt_int : Option Int → String
  | none => "None"
  | some v => toString v

/-- Python `repr` of a string literal, as it appears inside the `repr`
of a list of strings. -/
def pyStrRepr (s : String) : String := "\x27" ++ s ++ "\x27"

/-- Python `str` of a list of strings, as interpolated by `format`. -/
def pyListRepr (xs : List String) : String :=
  "[" ++ String.intercalate ", " (xs.map pyStrRepr) ++ "]"

/-- The warning printed when the installed CuPy package does not
support the detected CUDA version. -/
def unsupportedLine (pkgname : String) (cv : Option Int) : String :=
  "*** ERROR: This CuPy package (" ++ pkgname ++
    ") does not support CUDA version " ++ str_of_opt_int cv ++ "!"

/-- The warning printed when more than one CuPy package is installed. -/
def multipleLine : String :=
  "*** ERROR: multiple CuPy packages are installed! You can only install one of " ++
    pyListRepr (cupy_pkgs.map (fun x => x.1)) ++ "."

/-- The install message of `_report_pypkg`: `not installed` when the
package metadata is absent, else the `OK (...)` rendering of the
distribution name, version and location. -/
def installMsg : Option Package → String
  | none => "not installed"
  | some p =>
    "OK (" ++ p.project_name ++ " version " ++ p.version ++
      " from " ++ p.location ++ ")"

/-- The import message of `_report_pypkg`: on a successful
`__import__`, reading `__version__` and then `__path__` raises
`AttributeError` when the attribute is absent, and any exception of
the try block is captured as `import failed with <type>: <msg>`. -/
def importMsg (w : World) (modname : String) : String :=
  match w.modules modname with
  | .error e => "import failed with " ++ e.ename ++ ": " ++ e.emsg
  | .ok m =>
    match m.version with
    | none =>
      "import failed with AttributeError: " ++ w.noAttrMsg modname "__version__"
    | some v =>
      match m.path with
      | none =>
        "import failed with AttributeError: " ++ w.noAttrMsg modname "__path__"
      | some pth => "importing " ++ v ++ " from " ++ pth

/-- The probe `_report_pypkg(name, modname, pkg)`: build the import
message, then the install message from the package metadata, and print
the combined single line. -/
def report_pypkg (w : World) (name modname : String)
    (pkg : Option Package) : String :=
  reportLine name (installMsg pkg ++ " (" ++ importMsg w modname ++ ")")

/-- The CuPy loop of `main` over the `cupy_pkgs` rules, carrying the
`cupy_found` accumulator: for each installed rule package, report it,
evaluate its version-range lambda on `cudart_version` (an uncaught
`TypeError` aborts the run here), print the range warning when the
lambda yields false, print the multiple-packages warning when a
package was already found, and record the package as found.  Returns
the printed lines and the final `cupy_found`. -/
def cupyLoop (w : World) (cv : Option Int) :
    List (String × Int × Int) → Option Package →
    Except PyErr (List String × Option Package)
  | [], cupy_found => .ok ([], cupy_found)
  | (pkgname, lo, hi) :: rest, cupy_found =>
    match w.packages pkgname with
    | none => cupyLoop w cv rest cupy_found
    | some pkg =>
      let line := report_pypkg w "CuPy" "cupy" (some pkg)
      match pyChainLeLt lo cv hi with
      | .error e => .error e
      | .ok supported =>
        let warns :=
          (if supported then [] else [unsupportedLine pkgname cv]) ++
          (if cupy_found.isSome then [multipleLine] else [])
        match cupyLoop w cv rest (some pkg) with
        | .error e => .error e
        | .ok (ls, f) => .ok (line :: (warns ++ ls), f)

/-- The CuPy part of the Python Modules section: the loop over the
rules, then the `not installed` report when no rule package was
found. -/
def cupySection (w : World) (cv : Option Int) :
    Except PyErr (List String) :=
  match cupyLoop w cv cupy_pkgs none with
  | .error e => .error e
  | .ok (ls, found) =>
    .ok (ls ++ if found.isSome then [] else [report_pypkg w "CuPy" "cupy" none])

/-- The Python Modules section of `main`: header, the Chainer report,
the CuPy part, and the NumPy report. -/
def modulesSection (w : World) (cv : Option Int) :
    Except PyErr (List String) :=
  match cupySection w cv with
  | .error e => .error e
  | .ok cls =>
    .ok (header "Python Modules" ++
      [report_pypkg w "Chainer" "chainer" (w.packages "chainer")] ++
      cls ++
      [report_pypkg w "NumPy" "numpy" (w.packages "numpy")])

/-- Source `main()`: the Environment section, the Libraries section, and the
Python Modules section, in order; an uncaught exception of the CuPy
loop is the only failure the embedding can surface. -/
def main (w : World) : Except PyErr (List String) :=
  let envLines :=
    header "Environment" ++
    [reportLine "Current Directory" w.cwd] ++ envVarLines w
  let (libLines, cv) := librariesSection w
  match modulesSection w cv with
  | .error e => .error e
  | .ok mLines => .ok (envLines ++ header "Libraries" ++ libLines ++ mLines)

/-- The process exit status: 0 on a completed run, 1 when an uncaught
exception terminates the interpreter. -/
def exitCode (w : World) : Nat :=
  match main w with
  | .ok _ => 0
  | .error _ => 1

/-! Concrete platforms and worlds used to evaluate the embedding. -/

/-- A host with no native libraries on the search path at all. -/
def noLibsPlatform : Platform where
  find_library := fun _ => none
  loadFails := fun _ => false
  has_dladdr := false
  dladdr := fun _ => none
  cuDriverGetVersion := (0, 0)
  cudaRuntimeGetVersion := (0, 0)
  cudnnGetVersion := 0

/-- A host on which `cuda` resolves but `CDLL` raises `OSError`. -/
def loadFailPlatform : Platform :=
  { noLibsPlatform with
    find_library := fun n => if n = "cuda" then some "libcuda.so.1" else none,
    loadFails := fun _ => true }

/-- A host with `cuda` and `cudart` present whose version calls return
nonzero status codes (1 and 35) while leaving 0 and 9020 in the output
parameter. -/
def errProbePlatform : Platform where
  find_library := fun n =>
    if n = "cuda" then some "libcuda.so.1"
    else if n = "cudart" then some "libcudart.so.9.0"
    else if n = "dl" then some "libdl.so.2"
    else none
  loadFails := fun _ => false
  has_dladdr := true
  dladdr := fun f =>
    if f = ptr_cuDriverGetVersion then some "/usr/lib/libcuda.so.1"
    else if f = ptr_cudaRuntimeGetVersion then some "/usr/lib/libcudart.so.9.0"
    else none
  cuDriverGetVersion := (1, 0)
  cudaRuntimeGetVersion := (35, 9020)
  cudnnGetVersion := 0

/-- A fully healthy host: all four libraries present, all version
calls succeed. -/
def okPlatform : Platform where
  find_library := fun n =>
    if n = "cuda" then some "libcuda.so.1"
    else if n = "cudart" then some "libcudart.so.9.0"
    else if n = "cudnn" then some "libcudnn.so.7"
    else if n = "nccl" then some "libnccl.so.2"
    else if n = "dl" then some "libdl.so.2"
    else none
  loadFails := fun _ => false
  has_dladdr := true
  dladdr := fun f =>
    if f = ptr_cuDriverGetVersion then some "/usr/lib/libcuda.so.1"
    else if f = ptr_cudaRuntimeGetVersion then some "/usr/lib/libcudart.so.9.0"
    else if f = ptr_cudnnGetVersion then some "/usr/lib/libcudnn.so.7"
    else if f = ptr_ncclGetUniqueId then some "/usr/lib/libnccl.so.2"
    else none
  cuDriverGetVersion := (0, 9020)
  cudaRuntimeGetVersion := (0, 9000)
  cudnnGetVersion := 7102

/-- A host with only `nccl` (and `libdl`) present. -/
def ncclPlatform : Platform where
  find_library := fun n =>
    if n = "nccl" then some "libnccl.so.1"
    else if n = "dl" then some "libdl.so.2"
    else none
  loadFails := fun _ => false
  has_dladdr := true
  dladdr := fun f =>
    if f = ptr_ncclGetUniqueId then some "/usr/lib/libnccl.so.1"
    else none
  cuDriverGetVersion := (0, 0)
  cudaRuntimeGetVersion := (0, 0)
  cudnnGetVersion := 0

/-- The loader state after `import cupy.cuda.runtime` made `cudart`
resolvable through the RPATH embedded in the CuPy shared library. -/
def cupyRuntimePlatform : Platform where
  find_library := fun n =>
    if n = "cudart" then some "libcudart.so.9.0"
    else if n = "dl" then some "libdl.so.2"
    else none
  loadFails := fun _ => false
  has_dladdr := true
  dladdr := fun f =>
    if f = ptr_cudaRuntimeGetVersion then some "/opt/cupy/libcudart.so.9.0"
    else none
  cuDriverGetVersion := (0, 0)
  cudaRuntimeGetVersion := (0, 9000)
  cudnnGetVersion := 0

/-- A baseline process state: empty environment, no libraries,
every import fails, no packages installed. -/
def baseWorld : World where
  cwd := "/home/user"
  environ := []
  plat := noLibsPlatform
  importEffect := fun _ p => p
  importRaises := fun _ => true
  packages := fun _ => none
  modules := fun m => .error ⟨"ImportError", "No module named " ++ m⟩
  noAttrMsg := fun m a => "module " ++ m ++ " has no attribute " ++ a

/-- An installed `cupy` source distribution. -/
def cupyPkg : Package :=
  ⟨"cupy", "4.1.0", "/usr/lib/python3.6/site-packages"⟩

/-- An installed `cupy-cuda80` wheel. -/
def cupy80Pkg : Package :=
  ⟨"cupy-cuda80", "4.1.0", "/usr/lib/python3.6/site-packages"⟩

/-- A world with no CUDA runtime anywhere but with the `cupy` package
installed: the configuration in which the version-range check receives
an absent runtime version. -/
def c1World : World :=
  { baseWorld with
    packages := fun n => if n = "cupy" then some cupyPkg else none }

/-- A world with no CUDA runtime anywhere but with the `cupy-cuda80`
package installed. -/
def c2World : World :=
  { baseWorld with
    packages := fun n => if n = "cupy-cuda80" then some cupy80Pkg else none }

/-- A world in which `cudart` is unresolvable at first and becomes
resolvable after the `import cupy.cuda.runtime` fallback. -/
def c5World : World :=
  { baseWorld with
    importEffect := fun m p =>
      if m = "cupy.cuda.runtime" then cupyRuntimePlatform else p }

/-- A cupy module object with no `__version__` attribute. -/
def noVersionModule : PyModule :=
  ⟨none, some "[/usr/lib/python3.6/site-packages/cupy]"⟩

/-- A cupy module object with both attributes present. -/
def okModule : PyModule :=
  ⟨some "4.1.0", some "[/usr/lib/python3.6/site-packages/cupy]"⟩

/-- A world in which `import cupy` succeeds but the module object has
no `__version__` attribute, and the `cupy` package is installed. -/
def c6World : World :=
  { baseWorld with
    packages := fun n => if n = "cupy" then some cupyPkg else none,
    modules := fun m =>
      if m = "cupy" then .ok noVersionModule
      else .error ⟨"ImportError", "No module named " ++ m⟩ }

/-- A world in which `import cupy` succeeds with both attributes
present. -/
def c6OkWorld : World :=
  { baseWorld with
    modules := fun m =>
      if m = "cupy" then .ok okModule
      else .error ⟨"ImportError", "No module named " ++ m⟩ }

/-!
Theorems settling the claims.
-/

/-- Claim C1 (code bug): the claim states that when the Runtime
Version is absent and a CuPy rule package is installed, the validator
skips the version-range check without error and still performs the
multiple-installed-package check.  The code instead applies the range
lambda to the absent value: in `c1World` (no CUDA runtime anywhere,
`cupy` installed) the run reaches `7000 <= None`, which raises
`TypeError` under Python 3, aborting the whole run before the
multiple-installed-package check. -/
theorem c1_absent_runtime_version_crashes_validator :
    (librariesSection c1World).2 = none ∧
    c1World.packages "cupy" = some cupyPkg ∧
    main c1World = .error typeErrorIntNone := by
  refine ⟨rfl, rfl, rfl⟩

/-- Claim C2 (code bug): the claim states that every configuration
runs to completion with exit status 0.  In `c2World` (no CUDA runtime,
`cupy-cuda80` installed) the compatibility check raises an uncaught
`TypeError` and the interpreter exits with a nonzero status. -/
theorem c2_uncaught_type_error_gives_nonzero_exit :
    main c2World = .error typeErrorIntNone ∧ exitCode c2World = 1 := by
  refine ⟨rfl, rfl⟩

/-- Claim C3, counterexample: on a nonzero status code the probe does
not emit a report line whose whole status text is `(ERROR <code>!)`;
the error text is embedded in the version field of a success-shaped
`OK (version ... from ...)` line. -/
theorem c3_counterexample :
    (report_cuda_driver errProbePlatform "CUDA Driver").1 =
      [reportLine "CUDA Driver"
        "OK (version (ERROR 1!) from /usr/lib/libcuda.so.1)"] ∧
    (report_cuda_driver errProbePlatform "CUDA Driver").1 ≠
      [reportLine "CUDA Driver" "(ERROR 1!)"] := by
  refine ⟨rfl, by decide⟩

/-- Claim C3, amended: for every probe whose entry point returns a
nonzero status code, the error code is surfaced verbatim as
`(ERROR <code>!)` in the version field of the `OK (version ... from
...)` report line, for both the driver and the runtime probe. -/
theorem c3_amended_error_code_inside_ok_line :
    (∀ (p : Platform) (name l : String),
      get_cdll p "cuda" = some l → p.cuDriverGetVersion.1 ≠ 0 →
      (report_cuda_driver p name).1 =
        [reportLine name
          ("OK (version " ++
            ("(ERROR " ++ toString p.cuDriverGetVersion.1 ++ "!)") ++
            " from " ++ get_cdll_path p ptr_cuDriverGetVersion ++ ")")]) ∧
    (∀ (p : Platform) (name l : String),
      get_cdll p "cudart" = some l → p.cudaRuntimeGetVersion.1 ≠ 0 →
      (report_cuda_runtime p name).1 =
        [reportLine "CUDA Runtime"
          ("OK (version " ++
            ("(ERROR " ++ toString p.cudaRuntimeGetVersion.1 ++ "!)") ++
            " from " ++ get_cdll_path p ptr_cudaRuntimeGetVersion ++ ")")]) := by
  constructor
  · intro p name l h hr
    simp [report_cuda_driver, h, report, hr]
  · intro p name l h hr
    simp [report_cuda_runtime, h, report, hr]

/-- Witness for the amended C3, at the concrete platform whose driver
call returns status 1 and whose runtime call returns status 35. -/
theorem c3_amended_witness :
    (report_cuda_driver errProbePlatform "CUDA Driver").1 =
      [reportLine "CUDA Driver"
        ("OK (version " ++
          ("(ERROR " ++ toString errProbePlatform.cuDriverGetVersion.1 ++ "!)") ++
          " from " ++ get_cdll_path errProbePlatform ptr_cuDriverGetVersion ++ ")")] ∧
    (report_cuda_runtime errProbePlatform "CUDA Runtime").1 =
      [reportLine "CUDA Runtime"
        ("OK (version " ++
          ("(ERROR " ++ toString errProbePlatform.cudaRuntimeGetVersion.1 ++ "!)") ++
          " from " ++ get_cdll_path errProbePlatform ptr_cudaRuntimeGetVersion ++ ")")] :=
  ⟨c3_amended_error_code_inside_ok_line.1 errProbePlatform "CUDA Driver"
      "libcuda.so.1" rfl (by decide),
   c3_amended_error_code_inside_ok_line.2 errProbePlatform "CUDA Runtime"
      "libcudart.so.9.0" rfl (by decide)⟩

/-- Claim C4, counterexample: the NCCL probe reports success as
`OK (from <path>)` — its report line contains no version value and no
version entry point is invoked. -/
theorem c4_counterexample :
    (report_nccl ncclPlatform "NCCL").1 =
      [reportLine "NCCL" "OK (from /usr/lib/libnccl.so.1)"] ∧
    ¬ List.IsInfix "version".data
        (reportLine "NCCL" "OK (from /usr/lib/libnccl.so.1)").data := by
  refine ⟨rfl, by decide⟩

/-- Claim C4, amended: on success the driver, runtime and cuDNN probes
report `OK (version <v> from <path>)` with a version value, while the
NCCL probe reports only `OK (from <path>)` without invoking any
version entry point. -/
theorem c4_amended_success_formats :
    (∀ (p : Platform) (name l : String),
      get_cdll p "cuda" = some l → p.cuDriverGetVersion.1 = 0 →
      (report_cuda_driver p name).1 =
        [reportLine name
          ("OK (version " ++ toString p.cuDriverGetVersion.2 ++ " from " ++
            get_cdll_path p ptr_cuDriverGetVersion ++ ")")]) ∧
    (∀ (p : Platform) (name l : String),
      get_cdll p "cudart" = some l → p.cudaRuntimeGetVersion.1 = 0 →
      (report_cuda_runtime p name).1 =
        [reportLine "CUDA Runtime"
          ("OK (version " ++ toString p.cudaRuntimeGetVersion.2 ++ " from " ++
            get_cdll_path p ptr_cudaRuntimeGetVersion ++ ")")]) ∧
    (∀ (p : Platform) (name l : String),
      get_cdll p "cudnn" = some l →
      (report_cudnn p name).1 =
        [reportLine name
          ("OK (version " ++ toString p.cudnnGetVersion ++ " from " ++
            get_cdll_path p ptr_cudnnGetVersion ++ ")")]) ∧
    (∀ (p : Platform) (name l : String),
      get_cdll p "nccl" = some l →
      (report_nccl p name).1 =
        [reportLine name
          ("OK (from " ++ get_cdll_path p ptr_ncclGetUniqueId ++ ")")]) := by
  refine ⟨?_, ?_, ?_, ?_⟩
  · intro p name l h hr
    simp [report_cuda_driver, h, report, hr]
  · intro p name l h hr
    simp [report_cuda_runtime, h, report, hr]
  · intro p name l h
    simp [report_cudnn, h, report]
  · intro p name l h
    simp [report_nccl, h, report]

/-- Witness for the amended C4, at the healthy platform. -/
theorem c4_amended_witness :
    (report_cuda_driver okPlatform "CUDA Driver").1 =
      [reportLine "CUDA Driver"
        ("OK (version " ++ toString okPlatform.cuDriverGetVersion.2 ++ " from " ++
          get_cdll_path okPlatform ptr_cuDriverGetVersion ++ ")")] ∧
    (report_cuda_runtime okPlatform "CUDA Runtime").1 =
      [reportLine "CUDA Runtime"
        ("OK (version " ++ toString okPlatform.cudaRuntimeGetVersion.2 ++ " from " ++
          get_cdll_path okPlatform ptr_cudaRuntimeGetVersion ++ ")")] ∧
    (report_cudnn okPlatform "cuDNN").1 =
      [reportLine "cuDNN"
        ("OK (version " ++ toString okPlatform.cudnnGetVersion ++ " from " ++
          get_cdll_path okPlatform ptr_cudnnGetVersion ++ ")")] ∧
    (report_nccl okPlatform "NCCL").1 =
      [reportLine "NCCL"
        ("OK (from " ++ get_cdll_path okPlatform ptr_ncclGetUniqueId ++ ")")] :=
  ⟨c4_amended_success_formats.1 okPlatform "CUDA Driver" "libcuda.so.1" rfl rfl,
   c4_amended_success_formats.2.1 okPlatform "CUDA Runtime" "libcudart.so.9.0" rfl rfl,
   c4_amended_success_formats.2.2.1 okPlatform "cuDNN" "libcudnn.so.7" rfl,
   c4_amended_success_formats.2.2.2 okPlatform "NCCL" "libnccl.so.2" rfl⟩

set_option maxRecDepth 16384 in
/-- Claim C5 (code bug): the claim states that every report line of
the retried probe carries the label suffixed `(via <companion>)`.  In
`c5World` the CUDA Runtime fallback retry succeeds, yet its success
line is reported under the plain title `CUDA Runtime` — the source
passes the string constant instead of the suffixed `name` parameter —
so the line printed by the second run carries no `(via CuPy)`
suffix. -/
theorem c5_fallback_retry_drops_suffixed_label :
    (runtimeStage c5World noLibsPlatform).1 =
      [reportLine "CUDA Runtime" "not found",
       reportLine "CUDA Runtime"
         "OK (version 9000 from /opt/cupy/libcudart.so.9.0)"] ∧
    ¬ List.IsInfix "(via CuPy)".data
        (reportLine "CUDA Runtime"
          "OK (version 9000 from /opt/cupy/libcudart.so.9.0)").data ∧
    reportLine "CUDA Runtime"
        "OK (version 9000 from /opt/cupy/libcudart.so.9.0)" ∈
      (librariesSection c5World).1 := by
  refine ⟨rfl, by decide, by decide⟩

set_option maxRecDepth 16384 in
/-- Claim C6, counterexample: when `import cupy` succeeds but the
module has no version attribute, the probe does not report
`(unknown version)`; the `AttributeError` raised by reading
`__version__` is caught by the surrounding handler and reported as
an import failure. -/
theorem c6_counterexample :
    report_pypkg c6World "CuPy" "cupy" (c6World.packages "cupy") =
      reportLine "CuPy"
        ("OK (cupy version 4.1.0 from /usr/lib/python3.6/site-packages) " ++
         "(import failed with AttributeError: module cupy has no attribute __version__)") ∧
    ¬ List.IsInfix "(unknown version)".data
        (report_pypkg c6World "CuPy" "cupy" (c6World.packages "cupy")).data := by
  refine ⟨rfl, by decide⟩

/-- Claim C6, amended: on a successful import with the version and
path attributes present, the probe reports `importing <v> from <p>`;
when the version attribute is absent, the `AttributeError` from
reading it is caught and reported as
`import failed with AttributeError: ...` rather than as
`(unknown version)`. -/
theorem c6_amended_missing_version_reports_import_failure :
    ∀ (w : World) (name modname : String) (pkg : Option Package) (m : PyModule),
      w.modules modname = .ok m →
      ((∀ v pth, m.version = some v → m.path = some pth →
        report_pypkg w name modname pkg =
          reportLine name
            (installMsg pkg ++ " (" ++
              ("importing " ++ v ++ " from " ++ pth) ++ ")")) ∧
       (m.version = none →
        report_pypkg w name modname pkg =
          reportLine name
            (installMsg pkg ++ " (" ++
              ("import failed with AttributeError: " ++
                w.noAttrMsg modname "__version__") ++ ")"))) := by
  intro w name modname pkg m h
  constructor
  · intro v pth hv hp
    simp [report_pypkg, importMsg, h, hv, hp]
  · intro hv
    simp [report_pypkg, importMsg, h, hv]

/-- Witness for the amended C6: the success case at `c6OkWorld` and
the missing-version case at `c6World`. -/
theorem c6_amended_witness :
    report_pypkg c6OkWorld "CuPy" "cupy" (some cupyPkg) =
      reportLine "CuPy"
        (installMsg (some cupyPkg) ++ " (" ++
          ("importing " ++ "4.1.0" ++ " from " ++
            "[/usr/lib/python3.6/site-packages/cupy]") ++ ")") ∧
    report_pypkg c6World "CuPy" "cupy" (some cupyPkg) =
      reportLine "CuPy"
        (installMsg (some cupyPkg) ++ " (" ++
          ("import failed with AttributeError: " ++
            c6World.noAttrMsg "cupy" "__version__") ++ ")") :=
  ⟨(c6_amended_missing_version_reports_import_failure c6OkWorld "CuPy" "cupy"
      (some cupyPkg) okModule rfl).1 "4.1.0"
      "[/usr/lib/python3.6/site-packages/cupy]" rfl rfl,
   (c6_amended_missing_version_reports_import_failure c6World "CuPy" "cupy"
      (some cupyPkg) noVersionModule rfl).2 rfl⟩

/-- Claim C7 (confirmed): a variable of the process environment is
echoed in the Environment section exactly when its name begins with
the ELF-style `LD_` prefix or the Mach-O-style `DYLD_` prefix, and the
echoed lines are precisely the `$NAME: value` report lines of the
variables that pass that filter. -/
theorem c7_env_echo_iff_linker_path_name :
    ∀ (w : World) (k v : String),
      ((k, v) ∈ envEchoed w ↔
        (k, v) ∈ w.environ ∧
          (k.startsWith "LD_" || k.startsWith "DYLD_") = true) ∧
      envVarLines w =
        (envEchoed w).map (fun kv => reportLine ("$" ++ kv.1) kv.2) := by
  intro w k v
  exact ⟨List.mem_filter, rfl⟩

/-- Claim C8 (confirmed): `report` makes exactly one `print` call,
producing one output line that carries the title as a prefix and the
status as a suffix, with the title field padded to at least the fixed
column width 22; the definition is total, so no input can make it
throw. -/
theorem c8_report_single_padded_line :
    ∀ (title status : String),
      report title status = [reportLine title status] ∧
      (reportLine title status).data =
        title.data ++ List.replicate (22 - title.length) ' ' ++
          ": ".data ++ status.data ∧
      title.data <+: (reportLine title status).data ∧
      status.data <:+ (reportLine title status).data ∧
      22 ≤ (ljust title 22).length := by
  intro title status
  refine ⟨rfl, rfl, ?_, ?_, ?_⟩
  · exact (List.prefix_append title.data
      (List.replicate (22 - title.length) ' ')).trans
      ((List.prefix_append _ (": ").data).trans
        (List.prefix_append _ status.data))
  · exact List.suffix_append _ status.data
  · show 22 ≤ (title.data ++ List.replicate (22 - title.length) ' ').length
    have hlen : title.length = title.data.length := rfl
    rw [List.length_append, List.length_replicate, ← hlen]
    omega

/-- Claim C9 (confirmed): the resolver returns absence when name
resolution finds nothing and when the found library fails to load with
`OSError`; and path-reverse-lookup always returns either the sentinel
`N/A` (facility unavailable), the sentinel `(error)` (the `dladdr`
call failed), or the filesystem path reported by `dladdr` — never a
propagated error. -/
theorem c9_resolver_absence_and_sentinels :
    (∀ (p : Platform) (name : String),
      p.find_library name = none → get_cdll p name = none) ∧
    (∀ (p : Platform) (name l : String),
      p.find_library name = some l → p.loadFails l = true →
      get_cdll p name = none) ∧
    (∀ (p : Platform) (f : Nat),
      get_cdll_path p f = "N/A" ∨ get_cdll_path p f = "(error)" ∨
      ∃ fname, p.dladdr f = some fname ∧ get_cdll_path p f = fname) := by
  refine ⟨?_, ?_, ?_⟩
  · intro p name h
    simp [get_cdll, h]
  · intro p name l h hl
    simp [get_cdll, h, hl]
  · intro p f
    rcases hdl : get_cdll p "dl" with _ | x
    · left
      simp [get_cdll_path, hdl]
    · by_cases hd : p.has_dladdr
      · rcases hda : p.dladdr f with _ | fname
        · right; left
          simp [get_cdll_path, hdl, hd, hda]
        · right; right
          exact ⟨fname, rfl, by simp [get_cdll_path, hdl, hd, hda]⟩
      · left
        simp [get_cdll_path, hdl, hd]

/-- Witness for C9, at a platform with nothing on the search path, a
platform whose load raises `OSError`, and a path lookup with `libdl`
absent. -/
theorem c9_witness :
    get_cdll noLibsPlatform "cuda" = none ∧
    get_cdll loadFailPlatform "cuda" = none ∧
    (get_cdll_path noLibsPlatform 0 = "N/A" ∨
     get_cdll_path noLibsPlatform 0 = "(error)" ∨
     ∃ fname, noLibsPlatform.dladdr 0 = some fname ∧
       get_cdll_path noLibsPlatform 0 = fname) :=
  ⟨c9_resolver_absence_and_sentinels.1 noLibsPlatform "cuda" rfl,
   c9_resolver_absence_and_sentinels.2.1 loadFailPlatform "cuda"
     "libcuda.so.1" rfl rfl,
   c9_resolver_absence_and_sentinels.2.2 noLibsPlatform 0⟩

/-- Claim C10 (confirmed): when `cudart` is found but its version call
returns a nonzero status, the probe still returns the integer left in
the output parameter, not absence; the runtime stage then adopts that
integer as `cudart_version` without retrying, and `main` hands exactly
the runtime-stage version to the compatibility check. -/
theorem c10_error_status_still_returns_out_param :
    (∀ (p : Platform) (name l : String) (r v : Int),
      get_cdll p "cudart" = some l → p.cudaRuntimeGetVersion = (r, v) →
      r ≠ 0 → (report_cuda_runtime p name).2 = some v) ∧
    (∀ (w : World) (p : Platform) (l : String) (r v : Int),
      get_cdll p "cudart" = some l → p.cudaRuntimeGetVersion = (r, v) →
      (runtimeStage w p).2.1 = some v) ∧
    (∀ (w : World),
      (librariesSection w).2 = (runtimeStage w (driverStage w).2).2.1) := by
  refine ⟨?_, ?_, ?_⟩
  · intro p name l r v h hrv _
    simp [report_cuda_runtime, h, hrv]
  · intro w p l r v h hrv
    simp [runtimeStage, report_cuda_runtime, h, hrv]
  · intro w
    rfl

/-- Witness for C10, at the platform whose runtime call returns status
35 with 9020 left in the output parameter. -/
theorem c10_witness :
    (report_cuda_runtime errProbePlatform "CUDA Runtime").2 = some 9020 ∧
    (runtimeStage baseWorld errProbePlatform).2.1 = some 9020 :=
  ⟨c10_error_status_still_returns_out_param.1 errProbePlatform "CUDA Runtime"
     "libcudart.so.9.0" 35 9020 rfl rfl (by decide),
   c10_error_status_still_returns_out_param.2.1 baseWorld errProbePlatform
     "libcudart.so.9.0" 35 9020 rfl rfl⟩

end ChainerDoctor
